import Mathlib

/-!
Verification of the MarketPulseAI client-side normalization and resilience
layer, shallowly embedded from `src/services/geminiService.ts` and
`src/App.tsx`.

The backend returns weakly-typed JSON; we model runtime JavaScript values
with `JsValue` (including `undefined` for `undefined`, produced by member
access on objects lacking the field).  Operations that can raise a runtime
`TypeError` (calling `.map` on a non-array, `.toLowerCase` on a
non-string, member access on `null`/`undefined`) are modelled in
`Except String`.
-/

set_option autoImplicit false

namespace MarketPulse

/-- Runtime JavaScript value, as produced by `JSON.parse` plus the
`undefined` value produced by member access on a missing field. -/
inductive JsValue where
| undefined : JsValue
| null : JsValue
| bool (b : Bool) : JsValue
| num (n : Int) : JsValue
| str (s : String) : JsValue
| arr (xs : List JsValue) : JsValue
| obj (fs : List (String × JsValue)) : JsValue

/-- JavaScript truthiness of a value. -/
def truthy : JsValue → Bool
| .undefined => false
| .null => false
| .bool b => b
| .num n => n != 0
| .str s => s != ""
| .arr _ => true
| .obj _ => true

/-- JavaScript `a || b`. -/
def jsOr (a b : JsValue) : JsValue :=
if truthy a then a else b

/-- First binding of a key in an object's field list (later duplicate keys
in a JS object literal overwrite earlier ones; `JSON.parse` keeps the
last, so we model objects as already-deduplicated field lists and take the
first match). -/
def findField : List (String × JsValue) → String → JsValue
| [], _ => .undefined
| (k', v) :: rest, k => if k' = k then v else findField rest k

/-- Member access `v.k` on a value known not to be `null`/`undefined`:
objects yield the field or `undefined`; primitives yield `undefined`. -/
def fieldOf (v : JsValue) (k : String) : JsValue :=
match v with
| .obj fs => findField fs k
| _ => .undefined

/-- Member access `v.k` with JavaScript semantics: throws a `TypeError`
on `null`/`undefined`, otherwise `fieldOf`. -/
def getField (v : JsValue) (k : String) : Except String JsValue :=
match v with
| .undefined => .error "TypeError: cannot read properties of undefined"
| .null => .error "TypeError: cannot read properties of null"
| w => .ok (fieldOf w k)

/-- Element-wise effectful map, in array order, stopping at the first
thrown error — the semantics of `Array.prototype.map` with a callback
that can throw. -/
def mapExcept {α : Type} (f : JsValue → Except String α) : List JsValue → Except String (List α)
| [] => .ok []
| x :: xs => do
  let y ← f x
  let ys ← mapExcept f xs
  .ok (y :: ys)

/-- JavaScript `v.map(f)`: a `TypeError` unless `v` is an array. -/
def jsMap {α : Type} (v : JsValue) (f : JsValue → Except String α) : Except String (List α) :=
match v with
| .arr xs => mapExcept f xs
| _ => .error "TypeError: v.map is not a function"

def exceptOk {α : Type} : Except String α → Bool
| .ok _ => true
| .error _ => false

def isStr : JsValue → Bool
| .str _ => true
| _ => false

def isArr : JsValue → Bool
| .arr _ => true
| _ => false

def isNullish : JsValue → Bool
| .null => true
| .undefined => true
| _ => false

/-- Length of an array value (`0` for non-arrays; only used on values
known to be arrays). -/
def arrLen : JsValue → Nat
| .arr xs => xs.length
| _ => 0

/-- JavaScript `s.toLowerCase()`, character-wise (executable model; core
`String.toLower` does not reduce in the kernel). -/
def jsToLower (s : String) : String := ⟨s.data.map Char.toLower⟩

/-- JavaScript `s.trim()`: strip leading and trailing whitespace. -/
def jsTrim (s : String) : String :=
  ⟨((s.data.dropWhile Char.isWhitespace).reverse.dropWhile Char.isWhitespace).reverse⟩

/-! ### Domain enums (`src/types.ts`) -/

/-- TS string enum `Sentiment`. -/
inductive Sentiment where
| positive : Sentiment
| neutral : Sentiment
| negative : Sentiment
deriving DecidableEq

/-- Underlying string value of the TS string enum member. -/
def Sentiment.val : Sentiment → String
| .positive => "positive"
| .neutral => "neutral"
| .negative => "negative"

/-- TS string enum `Frequency`. -/
inductive Frequency where
| low : Frequency
| medium : Frequency
| high : Frequency
deriving DecidableEq

def Frequency.val : Frequency → String
| .low => "low"
| .medium => "medium"
| .high => "high"

/-- TS union type `'low' | 'medium' | 'high'` used for prediction factor
impact and confidence level. -/
inductive Impact where
| low : Impact
| medium : Impact
| high : Impact
deriving DecidableEq

def Impact.val : Impact → String
| .low => "low"
| .medium => "medium"
| .high => "high"

/-! ### Enum normalization helpers (`geminiService.ts` lines 38-53, 277-283)

Each TS helper takes a `string` parameter and computes
`(x || '').toLowerCase().trim()`; on a string, `x || ''` is the identity
(the empty string is replaced by the empty string). -/

/-- `toFrequency` (geminiService.ts lines 38-44). -/
def toFrequency (freq : String) : Frequency :=
let normalized := jsTrim (jsToLower (if freq = "" then "" else freq))
if normalized = "low" ∨ normalized = "medium" ∨ normalized = "high" then
  (if normalized = "low" then .low else if normalized = "medium" then .medium else .high)
else .medium

/-- `toSentiment` (geminiService.ts lines 47-53). -/
def toSentiment (sent : String) : Sentiment :=
let normalized := jsTrim (jsToLower (if sent = "" then "" else sent))
if normalized = "positive" ∨ normalized = "neutral" ∨ normalized = "negative" then
  (if normalized = "positive" then .positive else if normalized = "neutral" then .neutral else .negative)
else .neutral

/-- `toImpact` (geminiService.ts lines 277-283). -/
def toImpact (impact : String) : Impact :=
let normalized := jsTrim (jsToLower (if impact = "" then "" else impact))
if normalized = "low" ∨ normalized = "medium" ∨ normalized = "high" then
  (if normalized = "low" then .low else if normalized = "medium" then .medium else .high)
else .medium

/-- Applying `toSentiment` to a runtime value: `sent || ''` yields the
value itself when truthy (then `.toLowerCase()` throws unless it is a
string) and `''` when falsy. -/
def toSentimentJs (v : JsValue) : Except String Sentiment :=
match jsOr v (.str "") with
| .str s => .ok (toSentiment s)
| _ => .error "TypeError: toLowerCase is not a function"

/-- Applying `toFrequency` to a runtime value. -/
def toFrequencyJs (v : JsValue) : Except String Frequency :=
match jsOr v (.str "") with
| .str s => .ok (toFrequency s)
| _ => .error "TypeError: toLowerCase is not a function"

/-- Applying `toImpact` to a runtime value. -/
def toImpactJs (v : JsValue) : Except String Impact :=
match jsOr v (.str "") with
| .str s => .ok (toImpact s)
| _ => .error "TypeError: toLowerCase is not a function"

/-! ### Review analysis (`geminiService.ts` lines 55-149)

The success path builds the result record inline (lines 85-104).  Because
the raw payload is weakly typed, the passthrough fields (`issue`,
`example_review_excerpt`, `gap`, `competitor_advantage`,
`actionable_recommendations`) can at runtime hold any JS value, so they
are modelled as `JsValue`; fields produced by the enum helpers or by
`.map` are well-typed whenever normalization does not throw. -/

structure PainPointN where
  issue : JsValue
  frequency_estimate : Frequency
  example_review_excerpt : JsValue

structure PositiveFeatureN where
  feature : JsValue
  frequency_estimate : Frequency
  example_review_excerpt : JsValue

structure CompetitiveGapN where
  gap : JsValue
  competitor_advantage : JsValue

structure ReviewAnalysisN where
  overall_sentiment : Sentiment
  top_pain_points : List PainPointN
  top_positive_features : List PositiveFeatureN
  competitive_gaps : List CompetitiveGapN
  actionable_recommendations : JsValue

/-- Normalization of one pain-point element (lines 87-91):
`point.issue || 'Unknown issue'`, `toFrequency(point.frequency_estimate)`,
`point.example_review_excerpt || 'No example provided'`. -/
def normPainPoint (point : JsValue) : Except String PainPointN := do
  let issue ← getField point "issue"
  let freqRaw ← getField point "frequency_estimate"
  let fr ← toFrequencyJs freqRaw
  let ex ← getField point "example_review_excerpt"
  .ok { issue := jsOr issue (.str "Unknown issue")
        frequency_estimate := fr
        example_review_excerpt := jsOr ex (.str "No example provided") }

/-- Normalization of one positive-feature element (lines 92-96). -/
def normPositiveFeature (feature : JsValue) : Except String PositiveFeatureN := do
  let f ← getField feature "feature"
  let freqRaw ← getField feature "frequency_estimate"
  let fr ← toFrequencyJs freqRaw
  let ex ← getField feature "example_review_excerpt"
  .ok { feature := jsOr f (.str "Unknown feature")
        frequency_estimate := fr
        example_review_excerpt := jsOr ex (.str "No example provided") }

/-- Normalization of one competitive-gap element (lines 97-100). -/
def normCompetitiveGap (gap : JsValue) : Except String CompetitiveGapN := do
  let g ← getField gap "gap"
  let adv ← getField gap "competitor_advantage"
  .ok { gap := jsOr g (.str "Unknown gap")
        competitor_advantage := jsOr adv (.str "Unknown advantage") }

/-- The review-analysis normalization expression (lines 85-104), field by
field in source order.  Each sequence field is
`(result.f || []).map(elem => ...)`; `actionable_recommendations` is
`result.actionable_recommendations || ['No specific recommendations available']`. -/
def normalizeReviewAnalysis (result : JsValue) : Except String ReviewAnalysisN := do
  let sentRaw ← getField result "overall_sentiment"
  let sent ← toSentimentJs sentRaw
  let ppRaw ← getField result "top_pain_points"
  let pps ← jsMap (jsOr ppRaw (.arr [])) normPainPoint
  let pfRaw ← getField result "top_positive_features"
  let pfs ← jsMap (jsOr pfRaw (.arr [])) normPositiveFeature
  let cgRaw ← getField result "competitive_gaps"
  let cgs ← jsMap (jsOr cgRaw (.arr [])) normCompetitiveGap
  let arRaw ← getField result "actionable_recommendations"
  .ok { overall_sentiment := sent
        top_pain_points := pps
        top_positive_features := pfs
        competitive_gaps := cgs
        actionable_recommendations := jsOr arRaw (.arr [.str "No specific recommendations available"]) }

/-- The hand-authored fallback returned by the `catch` block of
`analyzeReviews` (lines 110-147). -/
def analyzeFallback : ReviewAnalysisN :=
  { overall_sentiment := .positive
    top_pain_points :=
      [ { issue := .str "Shipping time could be faster"
          frequency_estimate := .medium
          example_review_excerpt := .str "Great product but delivery took longer than expected" }
      , { issue := .str "Packaging could be improved"
          frequency_estimate := .low
          example_review_excerpt := .str "Item arrived with slightly damaged packaging" } ]
    top_positive_features :=
      [ { feature := .str "Build quality"
          frequency_estimate := .high
          example_review_excerpt := .str "Very sturdy and well-made, feels premium" }
      , { feature := .str "Easy to use"
          frequency_estimate := .medium
          example_review_excerpt := .str "Simple setup and intuitive controls" } ]
    competitive_gaps :=
      [ { gap := .str "Faster shipping options"
          competitor_advantage := .str "Competitors offer 2-day delivery" } ]
    actionable_recommendations :=
      .arr [ .str "Improve logistics to reduce delivery times"
           , .str "Highlight build quality in marketing materials"
           , .str "Offer optional expedited shipping" ] }

/-- Outcome of one `fetch` round trip: the request can fail on the
network, return a non-2xx status (the code then throws before parsing),
fail to parse (`response.json()` throws), or succeed with a parsed body. -/
inductive FetchOutcome where
| networkError : FetchOutcome
| badStatus (code : Nat) (body : String) : FetchOutcome
| parseError : FetchOutcome
| success (body : JsValue) : FetchOutcome

/-- `analyzeReviews` (lines 55-149): the whole body is wrapped in
`try`/`catch`; any thrown error — including a `TypeError` raised inside
the normalization expression itself — lands in the `catch`, which returns
`analyzeFallback`.  The two text inputs only feed the request body. -/
def analyzeReviews (productReviews competitorReviews : String) (o : FetchOutcome) : ReviewAnalysisN :=
  match o with
  | .success raw =>
    match normalizeReviewAnalysis raw with
    | .ok r => r
    | .error _ => analyzeFallback
  | _ => analyzeFallback

/-! ### Listing generation (`geminiService.ts` lines 151-253) -/

/-- `ListingInput` (`src/types.ts`). -/
structure ListingInput where
  productName : String
  category : String
  features : String
  targetAudience : String
  brandTone : String

/-- The normalized listing result.  The success path (lines 172-201) is a
pure `result.field || default` per field with no element mapping, so every
field is a raw passthrough or the default array; all five are `JsValue`. -/
structure ListingGenerationN where
  product_title_variants : JsValue
  bullet_point_variants : JsValue
  full_description_variants : JsValue
  primary_keywords : JsValue
  secondary_keywords : JsValue

/-- Success-path default for `product_title_variants` (lines 173-177). -/
def successTitleDefaults (input : ListingInput) : JsValue :=
  .arr [ .str (input.productName ++ " - Premium Quality")
       , .str ("Professional " ++ input.productName)
       , .str (input.productName ++ " | Best in Class") ]

/-- Success-path default for `bullet_point_variants` (lines 178-181). -/
def successBulletDefaults : JsValue :=
  .arr [ .arr [ .str "High-quality materials and construction"
              , .str "Easy to use and maintain"
              , .str "Durable and long-lasting" ]
       , .arr [ .str "Professional-grade performance"
              , .str "Versatile for multiple applications"
              , .str "Excellent value for money" ] ]

/-- Success-path default for `full_description_variants` (lines 182-185). -/
def successDescriptionDefaults (input : ListingInput) : JsValue :=
  .arr [ .str ("Introducing our premium " ++ input.productName
          ++ ", designed for excellence in the " ++ input.category
          ++ " category. Perfect for " ++ input.targetAudience
          ++ ", this product combines breakthrough technology with elegant "
          ++ jsToLower input.brandTone ++ " design. Features include: "
          ++ input.features ++ ".")
       , .str ("Experience superior performance with the " ++ input.productName
          ++ ". Engineered for " ++ input.targetAudience
          ++ ", every detail has been optimized for your success. This "
          ++ input.category ++ " solution offers " ++ input.features
          ++ " in a package designed to exceed expectations.") ]

/-- Success-path default for `primary_keywords` (lines 186-192). -/
def successPrimaryKeywordDefaults (input : ListingInput) : JsValue :=
  .arr [ .str (jsTrim (jsToLower input.productName))
       , .str (jsTrim (jsToLower input.category))
       , .str "premium", .str "professional", .str "quality" ]

/-- Success-path default for `secondary_keywords` (lines 193-200). -/
def successSecondaryKeywordDefaults : JsValue :=
  .arr [ .str "buy", .str "best", .str "review"
       , .str "sale", .str "discount", .str "2024" ]

/-- The listing normalization expression (lines 172-201): each field is
`result.field || default`.  The only runtime error possible here is
member access on a `null`/`undefined` parsed body. -/
def normalizeListing (input : ListingInput) (result : JsValue) : Except String ListingGenerationN := do
  let t ← getField result "product_title_variants"
  let b ← getField result "bullet_point_variants"
  let d ← getField result "full_description_variants"
  let pk ← getField result "primary_keywords"
  let sk ← getField result "secondary_keywords"
  .ok { product_title_variants := jsOr t (successTitleDefaults input)
        bullet_point_variants := jsOr b successBulletDefaults
        full_description_variants := jsOr d (successDescriptionDefaults input)
        primary_keywords := jsOr pk (successPrimaryKeywordDefaults input)
        secondary_keywords := jsOr sk successSecondaryKeywordDefaults }

/-- The `catch`-block fallback of `generateListing` (lines 207-251),
templated from the input. -/
def listingFallback (input : ListingInput) : ListingGenerationN :=
  { product_title_variants :=
      .arr [ .str (input.productName ++ " - Professional Edition")
           , .str ("Premium " ++ input.productName ++ " | High Performance")
           , .str (input.productName ++ " Pro - Advanced Technology") ]
    bullet_point_variants :=
      .arr [ .arr [ .str ("Advanced " ++ input.category ++ " technology")
                  , .str "Durable materials built to last"
                  , .str "Easy to use with intuitive controls"
                  , .str "Backed by 2-year manufacturer warranty"
                  , .str "Trusted by professionals worldwide" ]
           , .arr [ .str "Cutting-edge innovation at an affordable price"
                  , .str "Ergonomic design for comfortable extended use"
                  , .str "Low maintenance requirements"
                  , .str "Compatible with industry-standard accessories"
                  , .str "Fast shipping and reliable delivery" ] ]
    full_description_variants :=
      .arr [ .str ("This " ++ input.productName
              ++ " represents the pinnacle of innovation in the " ++ input.category
              ++ " industry. Designed specifically for " ++ input.targetAudience
              ++ ", it combines breakthrough technology with robust construction to deliver unmatched performance. With features like "
              ++ input.features ++ ", it's the perfect solution for demanding professionals.")
           , .str ("Elevate your experience with our " ++ input.productName
              ++ ", engineered to exceed expectations. This exceptional " ++ input.category
              ++ " product offers " ++ input.features
              ++ " in a package designed for " ++ input.targetAudience
              ++ ". Built with precision and tested for reliability, it represents the smart choice for those who value quality and results.") ]
    primary_keywords :=
      .arr [ .str (jsTrim (jsToLower input.productName))
           , .str (jsTrim (jsToLower input.category))
           , .str "premium", .str "professional", .str "advanced", .str "quality" ]
    secondary_keywords :=
      .arr [ .str "buy", .str "best", .str "review", .str "sale"
           , .str "discount", .str "price", .str "deal", .str "2024" ] }

/-- `generateListing` (lines 151-253): `try`/`catch` around the fetch and
the normalization; any thrown error returns `listingFallback input`. -/
def generateListing (input : ListingInput) (o : FetchOutcome) : ListingGenerationN :=
  match o with
  | .success raw =>
    match normalizeListing input raw with
    | .ok r => r
    | .error _ => listingFallback input
  | _ => listingFallback input

/-! ### Prediction explanation (`geminiService.ts` lines 255-320) -/

/-- `PredictionInput` (`src/types.ts`). -/
structure PredictionInput where
  modelOutput : String
  inputFeatures : String
  historicalContext : String

structure PredictionFactorN where
  factor : JsValue
  impact : Impact

structure PredictionExplanationN where
  prediction_summary : JsValue
  key_factors : List PredictionFactorN
  recommended_actions : JsValue
  confidence_level : Impact

/-- Normalization of one key-factor element (lines 287-290). -/
def normPredictionFactor (factor : JsValue) : Except String PredictionFactorN := do
  let f ← getField factor "factor"
  let impRaw ← getField factor "impact"
  let imp ← toImpactJs impRaw
  .ok { factor := jsOr f (.str "Unknown factor"), impact := imp }

/-- The prediction-explanation normalization expression (lines 285-297). -/
def normalizePrediction (result : JsValue) : Except String PredictionExplanationN := do
  let ps ← getField result "prediction_summary"
  let kfRaw ← getField result "key_factors"
  let kfs ← jsMap (jsOr kfRaw (.arr [])) normPredictionFactor
  let raRaw ← getField result "recommended_actions"
  let clRaw ← getField result "confidence_level"
  let cl ← toImpactJs clRaw
  .ok { prediction_summary := jsOr ps (.str "Model analysis suggests favorable market conditions.")
        key_factors := kfs
        recommended_actions :=
          jsOr raRaw (.arr [ .str "Monitor market trends closely"
                           , .str "Collect additional performance data"
                           , .str "Consider A/B testing different strategies" ])
        confidence_level := cl }

/-- The `catch`-block fallback of `explainPrediction` (lines 303-318). -/
def predictionFallback : PredictionExplanationN :=
  { prediction_summary :=
      .str "The model predicts positive outcomes with moderate confidence based on available data patterns."
    key_factors :=
      [ { factor := .str "Customer sentiment analysis", impact := .high }
      , { factor := .str "Market trend alignment", impact := .medium }
      , { factor := .str "Competitive landscape", impact := .low }
      , { factor := .str "Historical performance data", impact := .medium } ]
    recommended_actions :=
      .arr [ .str "Increase marketing spend by 10-15% in the next quarter"
           , .str "Expand product variations to capture additional market segments"
           , .str "Enhance customer support channels to improve satisfaction"
           , .str "Conduct A/B testing on pricing strategies" ]
    confidence_level := .medium }

/-- `explainPrediction` (lines 255-320): `try`/`catch`; any thrown error
returns `predictionFallback`.  The input only feeds the request body. -/
def explainPrediction (input : PredictionInput) (o : FetchOutcome) : PredictionExplanationN :=
  match o with
  | .success raw =>
    match normalizePrediction raw with
    | .ok r => r
    | .error _ => predictionFallback
  | _ => predictionFallback

/-! ### Submit handlers (`src/App.tsx` lines 74-161)

Each handler first validates its required fields, then checks
`backendHealth.connected`, and only then issues the network call.  A
blocked attempt calls `setError(message)` and returns, leaving the mode
showing its input form. -/

/-- `${API_BASE}` (`geminiService.ts` line 12). -/
def apiBase : String := "http://localhost:5000/api"

/-- What a submit attempt does: either it is blocked before any network
activity (surfacing the given error message and leaving the mode in its
input phase), or it issues exactly one network call to the given URL. -/
inductive SubmitAction where
| blocked (message : String) : SubmitAction
| networkCall (url : String) : SubmitAction
deriving DecidableEq

def issuesNetworkCall : SubmitAction → Bool
| .networkCall _ => true
| .blocked _ => false

/-- `handleAnalyzeReviews` (App.tsx lines 74-83): rejects when
`!productAReviews.trim()` — the trimmed text is empty — then when the
backend is not connected. -/
def handleAnalyzeReviews (productAReviews : String) (connected : Bool) : SubmitAction :=
  if jsTrim productAReviews = "" then
    .blocked "Provide product reviews to begin analysis."
  else if !connected then
    .blocked "Backend not connected. Please check if Python server is running."
  else
    .networkCall (apiBase ++ "/analyze")

/-- `handleGenerateListing` (App.tsx lines 107-116): rejects when
`!listingInput.productName || !listingInput.features` — either string is
empty (untrimmed falsiness check) — then when the backend is not
connected. -/
def handleGenerateListing (input : ListingInput) (connected : Bool) : SubmitAction :=
  if input.productName = "" ∨ input.features = "" then
    .blocked "Product Name and Features are required for copywriting."
  else if !connected then
    .blocked "Backend not connected. Please check if Python server is running."
  else
    .networkCall (apiBase ++ "/generate-listing")

/-- `handleExplainPrediction` (App.tsx lines 135-144): rejects when
`!predInput.modelOutput || !predInput.inputFeatures` (untrimmed), then
when the backend is not connected. -/
def handleExplainPrediction (input : PredictionInput) (connected : Bool) : SubmitAction :=
  if input.modelOutput = "" ∨ input.inputFeatures = "" then
    .blocked "Prediction data and features are required."
  else if !connected then
    .blocked "Backend not connected. Please check if Python server is running."
  else
    .networkCall (apiBase ++ "/explain-prediction")

/-! ### Connection monitor (`src/App.tsx` lines 55-72 and 170-178)

The monitor is implemented with a `useEffect` whose dependency array is
`[connectionRetries]`: the effect body runs on mount and again after any
render in which `connectionRetries` holds a different value than before
(React skips both the re-render and the effect when a state setter stores
a value equal to the current one).  Each effect run issues one health
probe; on failure, if `connectionRetries < 3`, a 3000 ms timer is
scheduled whose callback increments `connectionRetries`, which re-runs
the effect.  `refreshBackendConnection` (lines 170-178) sets
`connectionRetries` to `0` and itself issues one direct probe. -/

inductive ConnState where
| checking : ConnState
| connected : ConnState
| disconnected : ConnState
deriving DecidableEq

/-- `setTimeout` delay of the automatic re-probe (App.tsx line 67). -/
def retryDelayMs : Nat := 3000

/-- Bound on `connectionRetries` in the automatic-retry guard
`connectionRetries < 3` (App.tsx line 63). -/
def maxAutoRetries : Nat := 3

structure MonitorState where
  retries : Nat
  health : ConnState
  timerPending : Bool
  probesIssued : Nat
deriving DecidableEq

/-- State before the mount effect has run. -/
def monitorStart : MonitorState :=
  { retries := 0, health := .checking, timerPending := false, probesIssued := 0 }

/-- One effect-driven probe that fails: `checkBackendHealth` resolves
`connected: false`, `setBackendHealth` stores it, and a retry timer is
scheduled iff `connectionRetries < 3` (App.tsx lines 60-68). -/
def probeFail (s : MonitorState) : MonitorState :=
  { s with health := .disconnected
           probesIssued := s.probesIssued + 1
           timerPending := Nat.blt s.retries maxAutoRetries }

/-- The scheduled timer fires: `setConnectionRetries(prev => prev + 1)`
(App.tsx lines 65-67); the change re-runs the effect, whose probe is
accounted separately by `probeFail`. -/
def timerFire (s : MonitorState) : MonitorState :=
  { s with timerPending := false, retries := s.retries + 1 }

/-- Drive the monitor in an environment where every probe fails: while a
timer is pending, fire it and let the re-run effect probe fail.  `fuel`
bounds the recursion; the cascade is quiescent once no timer is
pending. -/
def runAllFailing : Nat → MonitorState → MonitorState
| 0, s => s
| Nat.succ n, s => if s.timerPending then runAllFailing n (probeFail (timerFire s)) else s

/-- The state after the mount probe and every automatic re-probe have
failed (fuel 10 is more than enough to reach quiescence). -/
def monitorQuiescent : MonitorState :=
  runAllFailing 10 (probeFail monitorStart)

/-- Number of health probes issued by one click of the Retry button
(`refreshBackendConnection`, App.tsx lines 170-178): one direct
`checkBackendHealth()` call, plus one more from the effect re-run when
`setConnectionRetries(0)` changed the value (i.e. when `retries ≠ 0`). -/
def manualRetryProbes (s : MonitorState) : Nat :=
  1 + (if s.retries = 0 then 0 else 1)

/-- Retry-counter effect of `refreshBackendConnection`:
`setConnectionRetries(0)`. -/
def manualRetryReset (s : MonitorState) : MonitorState :=
  { s with retries := 0 }

/-! ### Auxiliary predicates and sample values for the verification -/

/-- A concrete listing input used by counterexamples and witnesses. -/
def wInput : ListingInput :=
  { productName := "Widget", category := "Tools", features := "durable"
    targetAudience := "makers", brandTone := "Professional" }

/-- An enum-position raw value is safe iff it is falsy (defaulted to
`''`) or a string: `.toLowerCase()` throws on any truthy non-string. -/
def enumSlotOk (v : JsValue) : Bool := !truthy v || isStr v

/-- A sequence-position raw value is safe for `(v || []).map(f)` iff it
is falsy (defaulted to `[]`) or an array all of whose elements satisfy
the element predicate. -/
def seqSlotOk (v : JsValue) (P : JsValue → Bool) : Bool :=
  !truthy v || (match v with | .arr xs => xs.all P | _ => false)

/-- A pain-point or positive-feature element is safe iff member access on
it succeeds and its `frequency_estimate` slot is enum-safe. -/
def freqElemOk (p : JsValue) : Bool :=
  !isNullish p && enumSlotOk (fieldOf p "frequency_estimate")

/-- A competitive-gap element is safe iff member access on it succeeds. -/
def gapElemOk (g : JsValue) : Bool := !isNullish g

/-- A raw review-analysis body on which the normalization expression is
throw-free and produces list-valued sequence fields: member access on the
body succeeds, the enum slot holds a string or is falsy, each mapped
sequence slot is falsy or a safe array, and the recommendations slot is
falsy or an array. -/
def rawReviewOk (raw : JsValue) : Bool :=
  !isNullish raw
  && enumSlotOk (fieldOf raw "overall_sentiment")
  && seqSlotOk (fieldOf raw "top_pain_points") freqElemOk
  && seqSlotOk (fieldOf raw "top_positive_features") freqElemOk
  && seqSlotOk (fieldOf raw "competitive_gaps") gapElemOk
  && (!truthy (fieldOf raw "actionable_recommendations")
      || isArr (fieldOf raw "actionable_recommendations"))

/-- Whether a normalization outcome succeeded with an array-valued
`actionable_recommendations` field. -/
def recsAreList : Except String ReviewAnalysisN → Bool
| .ok r => isArr r.actionable_recommendations
| .error _ => false

/-- The normalized result of an empty raw review-analysis body. -/
def emptyNormalized : ReviewAnalysisN :=
  { overall_sentiment := .neutral
    top_pain_points := []
    top_positive_features := []
    competitive_gaps := []
    actionable_recommendations := .arr [.str "No specific recommendations available"] }

/-! ## Theorems -/

/-- Claim C1: for every input and every failure of the underlying request
(network failure, non-2xx status, or unparseable body), each of
`analyzeReviews`, `generateListing`, and `explainPrediction` does not
propagate the error but returns its fixed, deterministic,
operation-specific fallback; in particular, on a network error
`analyzeReviews` returns a result whose `overall_sentiment` is
`positive`. -/
theorem c1_fail_open (pr cr : String) (li : ListingInput) (pin : PredictionInput)
    (code : Nat) (body : String) :
    analyzeReviews pr cr .networkError = analyzeFallback ∧
    analyzeReviews pr cr (.badStatus code body) = analyzeFallback ∧
    analyzeReviews pr cr .parseError = analyzeFallback ∧
    generateListing li .networkError = listingFallback li ∧
    generateListing li (.badStatus code body) = listingFallback li ∧
    generateListing li .parseError = listingFallback li ∧
    explainPrediction pin .networkError = predictionFallback ∧
    explainPrediction pin (.badStatus code body) = predictionFallback ∧
    explainPrediction pin .parseError = predictionFallback ∧
    (analyzeReviews pr cr .networkError).overall_sentiment = Sentiment.positive :=
  ⟨rfl, rfl, rfl, rfl, rfl, rfl, rfl, rfl, rfl, rfl⟩

/-- Claim C9: with the backend reachable and returning
`{"overall_sentiment": "POSITIVE", "top_pain_points": []}`, the
normalized review-analysis result has `overall_sentiment = positive`,
`top_pain_points = []`, `actionable_recommendations =
["No specific recommendations available"]`, and `competitive_gaps = []`. -/
theorem c9_end_to_end :
    analyzeReviews "Great product but shipping is slow." ""
        (.success (.obj [("overall_sentiment", .str "POSITIVE"), ("top_pain_points", .arr [])])) =
      { overall_sentiment := .positive
        top_pain_points := []
        top_positive_features := []
        competitive_gaps := []
        actionable_recommendations := .arr [.str "No specific recommendations available"] } :=
  rfl

/-- Claim C10: required-field validation is not uniform across modes.  A
whitespace-only `productAReviews` is rejected by the trimmed check of the
review-analysis handler (no network call), while whitespace-only required
fields pass the untrimmed falsiness checks of the listing and prediction
handlers, which then issue their network calls. -/
theorem c10_validation_asymmetry :
    handleAnalyzeReviews "   " true = .blocked "Provide product reviews to begin analysis." ∧
    handleGenerateListing ⟨"   ", "", "   ", "", "Professional"⟩ true =
      .networkCall (apiBase ++ "/generate-listing") ∧
    handleExplainPrediction ⟨"   ", "   ", ""⟩ true =
      .networkCall (apiBase ++ "/explain-prediction") :=
  ⟨rfl, rfl, rfl⟩

/-- Claim C2 counterexample: when the backend succeeds with a body that
omits the variant fields, the substituted success-path defaults give 3
title variants but 2 full-description variants, so
`len(product_title_variants) = len(full_description_variants) =
len(bullet_point_variants)` fails. -/
theorem c2_cex :
    arrLen (generateListing wInput (.success (.obj []))).product_title_variants = 3 ∧
    arrLen (generateListing wInput (.success (.obj []))).full_description_variants = 2 ∧
    arrLen (generateListing wInput (.success (.obj []))).bullet_point_variants = 2 ∧
    ¬ arrLen (generateListing wInput (.success (.obj []))).product_title_variants =
        arrLen (generateListing wInput (.success (.obj []))).full_description_variants := by
  refine ⟨rfl, rfl, rfl, ?_⟩
  intro h
  simp only [show arrLen (generateListing wInput (.success (.obj []))).product_title_variants = 3 from rfl,
    show arrLen (generateListing wInput (.success (.obj []))).full_description_variants = 2 from rfl] at h
  exact absurd h (by decide)

/-- Inversion of a successful `normalizeListing`: each output field is the
raw field `||` its default, in particular backend-supplied fields pass
through without any length re-alignment. -/
theorem normalizeListing_ok_shape (input : ListingInput) (raw : JsValue)
    (r : ListingGenerationN) (h : normalizeListing input raw = .ok r) :
    r.product_title_variants = jsOr (fieldOf raw "product_title_variants") (successTitleDefaults input) ∧
    r.bullet_point_variants = jsOr (fieldOf raw "bullet_point_variants") successBulletDefaults ∧
    r.full_description_variants = jsOr (fieldOf raw "full_description_variants") (successDescriptionDefaults input) ∧
    r.primary_keywords = jsOr (fieldOf raw "primary_keywords") (successPrimaryKeywordDefaults input) ∧
    r.secondary_keywords = jsOr (fieldOf raw "secondary_keywords") successSecondaryKeywordDefaults := by
  cases raw <;>
    simp only [normalizeListing, getField, bind, Except.bind, Except.ok.injEq] at h <;>
    (try cases h) <;> exact ⟨rfl, rfl, rfl, rfl, rfl⟩

/-- Claim C2 amended: the three variant sequences are not re-aligned.  On
every failure path and on a success whose body omits all fields, the
output has 3 title variants but 2 full-description and 2 bullet-point
variants; when the backend supplies a (truthy) variant field it is passed
through unchanged. -/
theorem c2_amended :
    (∀ (input : ListingInput) (code : Nat) (body : String),
      arrLen (generateListing input .networkError).product_title_variants = 3 ∧
      arrLen (generateListing input .networkError).full_description_variants = 2 ∧
      arrLen (generateListing input .networkError).bullet_point_variants = 2 ∧
      arrLen (generateListing input (.badStatus code body)).product_title_variants = 3 ∧
      arrLen (generateListing input .parseError).product_title_variants = 3 ∧
      arrLen (generateListing input (.success (.obj []))).product_title_variants = 3 ∧
      arrLen (generateListing input (.success (.obj []))).full_description_variants = 2 ∧
      arrLen (generateListing input (.success (.obj []))).bullet_point_variants = 2) ∧
    (∀ (input : ListingInput) (raw : JsValue) (r : ListingGenerationN),
      normalizeListing input raw = .ok r →
      (truthy (fieldOf raw "product_title_variants") = true →
        r.product_title_variants = fieldOf raw "product_title_variants") ∧
      (truthy (fieldOf raw "full_description_variants") = true →
        r.full_description_variants = fieldOf raw "full_description_variants") ∧
      (truthy (fieldOf raw "bullet_point_variants") = true →
        r.bullet_point_variants = fieldOf raw "bullet_point_variants")) := by
  constructor
  · intro input code body
    exact ⟨rfl, rfl, rfl, rfl, rfl, rfl, rfl, rfl⟩
  · intro input raw r h
    obtain ⟨ht, hb, hd, _, _⟩ := normalizeListing_ok_shape input raw r h
    refine ⟨?_, ?_, ?_⟩ <;> intro htr
    · rw [ht, jsOr, htr]; rfl
    · rw [hd, jsOr, htr]; rfl
    · rw [hb, jsOr, htr]; rfl

/-- Witness for the amended claim C2, at a concrete backend body carrying
4 title variants and 1 description variant: the mismatched lengths pass
through. -/
theorem c2_amended_witness :
    normalizeListing wInput
        (.obj [("product_title_variants", .arr [.str "a", .str "b", .str "c", .str "d"]),
               ("full_description_variants", .arr [.str "e"]),
               ("bullet_point_variants", .arr [.arr [.str "f"]])]) =
      .ok { product_title_variants := .arr [.str "a", .str "b", .str "c", .str "d"]
            bullet_point_variants := .arr [.arr [.str "f"]]
            full_description_variants := .arr [.str "e"]
            primary_keywords := successPrimaryKeywordDefaults wInput
            secondary_keywords := successSecondaryKeywordDefaults } ∧
    (generateListing wInput
        (.success (.obj [("product_title_variants", .arr [.str "a", .str "b", .str "c", .str "d"]),
               ("full_description_variants", .arr [.str "e"]),
               ("bullet_point_variants", .arr [.arr [.str "f"]])]))).product_title_variants =
      .arr [.str "a", .str "b", .str "c", .str "d"] := by
  constructor
  · rfl
  · exact ((c2_amended.2 wInput
      (.obj [("product_title_variants", .arr [.str "a", .str "b", .str "c", .str "d"]),
             ("full_description_variants", .arr [.str "e"]),
             ("bullet_point_variants", .arr [.arr [.str "f"]])])
      _ rfl).1 rfl)

/-- Claim C5: each enum helper lower-cases and trims its raw string; a
recognized member is returned as that member, anything else yields the
documented default (`neutral` for Sentiment, `medium` for Frequency and
Impact). -/
theorem c5_enum_normalization (s : String) :
    (toSentiment s).val =
      (if jsTrim (jsToLower s) ∈ (["positive", "neutral", "negative"] : List String)
       then jsTrim (jsToLower s) else "neutral") ∧
    (toFrequency s).val =
      (if jsTrim (jsToLower s) ∈ (["low", "medium", "high"] : List String)
       then jsTrim (jsToLower s) else "medium") ∧
    (toImpact s).val =
      (if jsTrim (jsToLower s) ∈ (["low", "medium", "high"] : List String)
       then jsTrim (jsToLower s) else "medium") := by
  have hid : (if s = "" then "" else s) = s := by
    split
    · exact Eq.symm (by assumption)
    · rfl
  refine ⟨?_, ?_, ?_⟩
  · simp only [toSentiment, hid, List.mem_cons, List.not_mem_nil, or_false]
    split_ifs <;> simp_all [Sentiment.val]
  · simp only [toFrequency, hid, List.mem_cons, List.not_mem_nil, or_false]
    split_ifs <;> simp_all [Frequency.val]
  · simp only [toImpact, hid, List.mem_cons, List.not_mem_nil, or_false]
    split_ifs <;> simp_all [Impact.val]

/-- `toSentiment` maps each enum member's own string value back to that
member. -/
theorem toSentiment_fix (x : Sentiment) : toSentiment x.val = x := by
  cases x <;> rfl

/-- `toFrequency` maps each enum member's own string value back to that
member. -/
theorem toFrequency_fix (x : Frequency) : toFrequency x.val = x := by
  cases x <;> rfl

/-- `toImpact` maps each member's own string value back to that member. -/
theorem toImpact_fix (x : Impact) : toImpact x.val = x := by
  cases x <;> rfl

/-- Claim C6: enum normalization is idempotent — normalizing the string
value of an already-normalized result returns the same result, for every
raw string (mixed case, padded, or unrecognized). -/
theorem c6_idempotent (s : String) :
    toSentiment (toSentiment s).val = toSentiment s ∧
    toFrequency (toFrequency s).val = toFrequency s ∧
    toImpact (toImpact s).val = toImpact s :=
  ⟨toSentiment_fix _, toFrequency_fix _, toImpact_fix _⟩

/-- Claim C7 counterexample: from the quiescent bound-reached state, one
click of the manual Retry button issues two health probes, not exactly
one — `refreshBackendConnection` probes directly, and its
`setConnectionRetries(0)` changes the effect dependency (from 3 to 0),
re-running the mount effect, which probes again. -/
theorem c7_cex :
    manualRetryProbes monitorQuiescent = 2 ∧ manualRetryProbes monitorQuiescent ≠ 1 := by
  refine ⟨rfl, ?_⟩
  intro h
  simp only [show manualRetryProbes monitorQuiescent = 2 from rfl] at h
  exact absurd h (by decide)

/-- Claim C7 amended: starting from `checking`, after the initial probe
and the 3 automatic re-probes (a fixed 3000 ms delay each, bounded by
`connectionRetries < 3`) all fail, the monitor is `disconnected` with no
further automatic probe scheduled, having issued 4 probes in total; a
manual retry then resets the retry counter to 0 but issues two probes
(one direct, one from the effect re-run triggered by the counter reset),
re-arming the automatic cycle. -/
theorem c7_amended :
    monitorQuiescent.health = ConnState.disconnected ∧
    monitorQuiescent.timerPending = false ∧
    monitorQuiescent.probesIssued = 4 ∧
    monitorQuiescent.retries = 3 ∧
    (∀ n, runAllFailing n monitorQuiescent = monitorQuiescent) ∧
    retryDelayMs = 3000 ∧
    maxAutoRetries = 3 ∧
    (manualRetryReset monitorQuiescent).retries = 0 ∧
    manualRetryProbes monitorQuiescent = 2 := by
  refine ⟨rfl, rfl, rfl, rfl, ?_, rfl, rfl, rfl, rfl⟩
  intro n
  cases n with
  | zero => rfl
  | succ m =>
    simp only [runAllFailing, show monitorQuiescent.timerPending = false from rfl,
      Bool.false_eq_true, if_false]

/-- Claim C8: in every mode, a submit attempt with an empty required
field, or with the backend not connected, is blocked before any network
call, surfacing a validation or connectivity message; in particular a
listing submit with empty `productName` and `features = "x"` is blocked
with the required-fields message. -/
theorem c8_submit_gating :
    (∀ (pr : String) (conn : Bool), jsTrim pr = "" →
        issuesNetworkCall (handleAnalyzeReviews pr conn) = false) ∧
    (∀ pr : String, issuesNetworkCall (handleAnalyzeReviews pr false) = false) ∧
    (∀ (li : ListingInput) (conn : Bool), li.productName = "" ∨ li.features = "" →
        issuesNetworkCall (handleGenerateListing li conn) = false) ∧
    (∀ li : ListingInput, issuesNetworkCall (handleGenerateListing li false) = false) ∧
    (∀ (pin : PredictionInput) (conn : Bool), pin.modelOutput = "" ∨ pin.inputFeatures = "" →
        issuesNetworkCall (handleExplainPrediction pin conn) = false) ∧
    (∀ pin : PredictionInput, issuesNetworkCall (handleExplainPrediction pin false) = false) ∧
    (∀ (cat ta bt : String) (conn : Bool),
        handleGenerateListing ⟨"", cat, "x", ta, bt⟩ conn =
          .blocked "Product Name and Features are required for copywriting.") := by
  refine ⟨?_, ?_, ?_, ?_, ?_, ?_, ?_⟩
  · intro pr conn h
    simp [handleAnalyzeReviews, h, issuesNetworkCall]
  · intro pr
    by_cases h : jsTrim pr = "" <;> simp [handleAnalyzeReviews, h, issuesNetworkCall]
  · intro li conn h
    simp [handleGenerateListing, h, issuesNetworkCall]
  · intro li
    by_cases h : li.productName = "" ∨ li.features = "" <;>
      simp [handleGenerateListing, h, issuesNetworkCall]
  · intro pin conn h
    simp [handleExplainPrediction, h, issuesNetworkCall]
  · intro pin
    by_cases h : pin.modelOutput = "" ∨ pin.inputFeatures = "" <;>
      simp [handleExplainPrediction, h, issuesNetworkCall]
  · intro cat ta bt conn
    simp [handleGenerateListing]

/-- Witness for claim C8 at concrete inputs: empty required fields and a
disconnected backend each block the submit, and the scenario input
`productName = ""`, `features = "x"` surfaces the required-fields
message. -/
theorem c8_submit_gating_witness :
    issuesNetworkCall (handleAnalyzeReviews "" true) = false ∧
    issuesNetworkCall (handleAnalyzeReviews "fine product" false) = false ∧
    issuesNetworkCall (handleGenerateListing ⟨"", "c", "x", "t", "Professional"⟩ true) = false ∧
    issuesNetworkCall (handleExplainPrediction ⟨"", "f", ""⟩ true) = false ∧
    handleGenerateListing ⟨"", "cat", "x", "aud", "Professional"⟩ true =
      .blocked "Product Name and Features are required for copywriting." :=
  ⟨c8_submit_gating.1 "" true rfl,
   c8_submit_gating.2.1 "fine product",
   c8_submit_gating.2.2.1 ⟨"", "c", "x", "t", "Professional"⟩ true (Or.inl rfl),
   c8_submit_gating.2.2.2.2.1 ⟨"", "f", ""⟩ true (Or.inl rfl),
   c8_submit_gating.2.2.2.2.2.2 "cat" "aud" "Professional" true⟩

/-! ### Lemmas about the runtime-value primitives -/

theorem jsOr_of_falsy {a b : JsValue} (h : truthy a = false) : jsOr a b = b := by
  simp [jsOr, h]

theorem jsOr_of_truthy {a b : JsValue} (h : truthy a = true) : jsOr a b = a := by
  simp [jsOr, h]

theorem getField_ok (v : JsValue) (hn : isNullish v = false) (k : String) :
    getField v k = .ok (fieldOf v k) := by
  cases v <;> simp_all [isNullish, getField]

theorem toSentimentJs_ok (v : JsValue) (hv : enumSlotOk v = true) :
    exceptOk (toSentimentJs v) = true := by
  unfold toSentimentJs
  cases ht : truthy v with
  | false => rw [jsOr_of_falsy ht]; rfl
  | true =>
    rw [jsOr_of_truthy ht]
    simp only [enumSlotOk, ht, Bool.not_true, Bool.false_or] at hv
    cases v <;> simp_all [isStr, exceptOk]

theorem toFrequencyJs_ok (v : JsValue) (hv : enumSlotOk v = true) :
    exceptOk (toFrequencyJs v) = true := by
  unfold toFrequencyJs
  cases ht : truthy v with
  | false => rw [jsOr_of_falsy ht]; rfl
  | true =>
    rw [jsOr_of_truthy ht]
    simp only [enumSlotOk, ht, Bool.not_true, Bool.false_or] at hv
    cases v <;> simp_all [isStr, exceptOk]

theorem mapExcept_ok {α : Type} (f : JsValue → Except String α) (P : JsValue → Bool)
    (hf : ∀ x, P x = true → exceptOk (f x) = true) :
    ∀ xs : List JsValue, xs.all P = true → exceptOk (mapExcept f xs) = true := by
  intro xs hall
  induction xs with
  | nil => rfl
  | cons x xs ih =>
    simp only [List.all_cons, Bool.and_eq_true] at hall
    obtain ⟨hx, hxs⟩ := hall
    have hfx := hf x hx
    cases hx1 : f x with
    | error e => rw [hx1] at hfx; simp [exceptOk] at hfx
    | ok y =>
      have hrest := ih hxs
      cases hx2 : mapExcept f xs with
      | error e => rw [hx2] at hrest; simp [exceptOk] at hrest
      | ok ys => simp [mapExcept, bind, Except.bind, hx1, hx2, exceptOk]

theorem jsMapOr_ok {α : Type} (f : JsValue → Except String α) (P : JsValue → Bool)
    (hf : ∀ x, P x = true → exceptOk (f x) = true)
    (v : JsValue) (hv : seqSlotOk v P = true) :
    exceptOk (jsMap (jsOr v (.arr [])) f) = true := by
  cases ht : truthy v with
  | false => rw [jsOr_of_falsy ht]; rfl
  | true =>
    rw [jsOr_of_truthy ht]
    simp only [seqSlotOk, ht, Bool.not_true, Bool.false_or] at hv
    cases v with
    | arr xs => exact mapExcept_ok f P hf xs hv
    | undefined => simp at hv
    | null => simp at hv
    | bool b => simp at hv
    | num n => simp at hv
    | str s => simp at hv
    | obj fs => simp at hv

theorem normPainPoint_ok (p : JsValue) (hp : freqElemOk p = true) :
    exceptOk (normPainPoint p) = true := by
  simp only [freqElemOk, Bool.and_eq_true, Bool.not_eq_true'] at hp
  obtain ⟨hn, he⟩ := hp
  simp only [normPainPoint, getField_ok p hn, bind, Except.bind]
  have hfr := toFrequencyJs_ok _ he
  cases hf : toFrequencyJs (fieldOf p "frequency_estimate") with
  | error e => rw [hf] at hfr; simp [exceptOk] at hfr
  | ok fr => rfl

theorem normPositiveFeature_ok (p : JsValue) (hp : freqElemOk p = true) :
    exceptOk (normPositiveFeature p) = true := by
  simp only [freqElemOk, Bool.and_eq_true, Bool.not_eq_true'] at hp
  obtain ⟨hn, he⟩ := hp
  simp only [normPositiveFeature, getField_ok p hn, bind, Except.bind]
  have hfr := toFrequencyJs_ok _ he
  cases hf : toFrequencyJs (fieldOf p "frequency_estimate") with
  | error e => rw [hf] at hfr; simp [exceptOk] at hfr
  | ok fr => rfl

theorem normCompetitiveGap_ok (g : JsValue) (hg : gapElemOk g = true) :
    exceptOk (normCompetitiveGap g) = true := by
  simp only [gapElemOk, Bool.not_eq_true'] at hg
  simp only [normCompetitiveGap, getField_ok g hg, bind, Except.bind]
  rfl

/-- Claim C3 counterexample: on the raw body
`{"top_pain_points": 1}` — a field of unexpected (truthy, non-sequence)
type — the normalization expression throws a `TypeError` from
`(result.top_pain_points || []).map(...)` instead of producing a
result. -/
theorem c3_cex :
    exceptOk (normalizeReviewAnalysis (.obj [("top_pain_points", .num 1)])) = false :=
  rfl

/-- Claim C3 amended: the review-analysis normalization never throws and
every mapped sequence field of its output is a (possibly empty) list
provided the raw fields that are present and truthy have the expected
kinds — enum slots are strings, mapped sequence slots are arrays of
non-nullish elements with string-or-falsy `frequency_estimate`, and the
recommendations slot is an array; a truthy non-array in a mapped
sequence slot instead raises a `TypeError`, and a truthy non-array
recommendations slot is passed through unchanged. -/
theorem c3_amended (raw : JsValue) (h : rawReviewOk raw = true) :
    exceptOk (normalizeReviewAnalysis raw) = true ∧
    recsAreList (normalizeReviewAnalysis raw) = true := by
  simp only [rawReviewOk, Bool.and_eq_true, Bool.not_eq_true'] at h
  obtain ⟨⟨⟨⟨⟨hn, hsent⟩, hpp⟩, hpf⟩, hcg⟩, har⟩ := h
  simp only [normalizeReviewAnalysis, getField_ok raw hn, bind, Except.bind]
  have h1 := toSentimentJs_ok _ hsent
  cases e1 : toSentimentJs (fieldOf raw "overall_sentiment") with
  | error e => rw [e1] at h1; simp [exceptOk] at h1
  | ok sent =>
  have h2 := jsMapOr_ok normPainPoint freqElemOk normPainPoint_ok _ hpp
  cases e2 : jsMap (jsOr (fieldOf raw "top_pain_points") (.arr [])) normPainPoint with
  | error e => rw [e2] at h2; simp [exceptOk] at h2
  | ok pps =>
  have h3 := jsMapOr_ok normPositiveFeature freqElemOk normPositiveFeature_ok _ hpf
  cases e3 : jsMap (jsOr (fieldOf raw "top_positive_features") (.arr [])) normPositiveFeature with
  | error e => rw [e3] at h3; simp [exceptOk] at h3
  | ok pfs =>
  have h4 := jsMapOr_ok normCompetitiveGap gapElemOk normCompetitiveGap_ok _ hcg
  cases e4 : jsMap (jsOr (fieldOf raw "competitive_gaps") (.arr [])) normCompetitiveGap with
  | error e => rw [e4] at h4; simp [exceptOk] at h4
  | ok cgs =>
  refine ⟨rfl, ?_⟩
  show isArr (jsOr (fieldOf raw "actionable_recommendations")
      (.arr [.str "No specific recommendations available"])) = true
  cases ht : truthy (fieldOf raw "actionable_recommendations") with
  | false => rw [jsOr_of_falsy ht]; rfl
  | true =>
    rw [jsOr_of_truthy ht]
    rw [ht] at har
    simpa using har

/-- Witness for the amended claim C3 at a concrete well-kinded raw body
with a wrong-cased enum, one pain point, and no recommendations field. -/
theorem c3_amended_witness :
    rawReviewOk (.obj [("overall_sentiment", .str "GREAT"),
                       ("top_pain_points", .arr [.obj [("issue", .str "slow shipping")]])]) = true ∧
    exceptOk (normalizeReviewAnalysis
      (.obj [("overall_sentiment", .str "GREAT"),
             ("top_pain_points", .arr [.obj [("issue", .str "slow shipping")]])])) = true ∧
    recsAreList (normalizeReviewAnalysis
      (.obj [("overall_sentiment", .str "GREAT"),
             ("top_pain_points", .arr [.obj [("issue", .str "slow shipping")]])])) = true :=
  ⟨rfl,
   (c3_amended (.obj [("overall_sentiment", .str "GREAT"),
      ("top_pain_points", .arr [.obj [("issue", .str "slow shipping")]])]) rfl).1,
   (c3_amended (.obj [("overall_sentiment", .str "GREAT"),
      ("top_pain_points", .arr [.obj [("issue", .str "slow shipping")]])]) rfl).2⟩

/-- A successful review-analysis normalization implies the raw body was
not `null`/`undefined`. -/
theorem normalizeReviewAnalysis_ok_not_nullish (raw : JsValue) (r : ReviewAnalysisN)
    (h : normalizeReviewAnalysis raw = .ok r) : isNullish raw = false := by
  cases raw <;> simp_all [normalizeReviewAnalysis, getField, bind, Except.bind, isNullish]

/-- Inversion of a successful review-analysis normalization: each mapped
sequence field of the output is the successful map over the raw field
`|| []`, and `actionable_recommendations` is the raw field `||` the
single-element default. -/
theorem normalizeReviewAnalysis_ok_shape (raw : JsValue) (r : ReviewAnalysisN)
    (h : normalizeReviewAnalysis raw = .ok r) :
    jsMap (jsOr (fieldOf raw "top_pain_points") (.arr [])) normPainPoint = .ok r.top_pain_points ∧
    jsMap (jsOr (fieldOf raw "top_positive_features") (.arr [])) normPositiveFeature = .ok r.top_positive_features ∧
    jsMap (jsOr (fieldOf raw "competitive_gaps") (.arr [])) normCompetitiveGap = .ok r.competitive_gaps ∧
    r.actionable_recommendations =
      jsOr (fieldOf raw "actionable_recommendations") (.arr [.str "No specific recommendations available"]) := by
  have hn := normalizeReviewAnalysis_ok_not_nullish raw r h
  simp only [normalizeReviewAnalysis, getField_ok raw hn, bind, Except.bind] at h
  cases e1 : toSentimentJs (fieldOf raw "overall_sentiment") with
  | error e => rw [e1] at h; simp at h
  | ok sent =>
  rw [e1] at h
  cases e2 : jsMap (jsOr (fieldOf raw "top_pain_points") (.arr [])) normPainPoint with
  | error e => rw [e2] at h; simp at h
  | ok pps =>
  rw [e2] at h
  cases e3 : jsMap (jsOr (fieldOf raw "top_positive_features") (.arr [])) normPositiveFeature with
  | error e => rw [e3] at h; simp at h
  | ok pfs =>
  rw [e3] at h
  cases e4 : jsMap (jsOr (fieldOf raw "competitive_gaps") (.arr [])) normCompetitiveGap with
  | error e => rw [e4] at h; simp at h
  | ok cgs =>
  rw [e4] at h
  simp only [Except.ok.injEq] at h
  subst h
  exact ⟨rfl, rfl, rfl, rfl⟩

/-- Claim C4 counterexample: on the raw body
`{"actionable_recommendations": "hello"}` — a truthy value that is not a
sequence — normalization substitutes neither an empty sequence nor the
single-element default: the string is passed through unchanged into the
output field. -/
theorem c4_cex :
    normalizeReviewAnalysis (.obj [("actionable_recommendations", .str "hello")]) =
      .ok { overall_sentiment := .neutral
            top_pain_points := []
            top_positive_features := []
            competitive_gaps := []
            actionable_recommendations := .str "hello" } ∧
    (∀ l : List JsValue, JsValue.str "hello" ≠ JsValue.arr l) :=
  ⟨rfl, fun _ h => JsValue.noConfusion h⟩

/-- Claim C4 amended: the defaulting applies to absent or *falsy* raw
sequence fields, not to every non-sequence: a falsy raw value yields the
empty sequence for the mapped fields, the documented single-element
default for `actionable_recommendations`, and the templated default
variants for listing fields; truthy non-sequence values are not
substituted (mapped fields then throw; `actionable_recommendations`
passes the value through). -/
theorem c4_amended :
    (∀ (raw : JsValue) (r : ReviewAnalysisN), normalizeReviewAnalysis raw = .ok r →
      (truthy (fieldOf raw "top_pain_points") = false → r.top_pain_points = []) ∧
      (truthy (fieldOf raw "top_positive_features") = false → r.top_positive_features = []) ∧
      (truthy (fieldOf raw "competitive_gaps") = false → r.competitive_gaps = []) ∧
      (truthy (fieldOf raw "actionable_recommendations") = false →
        r.actionable_recommendations = .arr [.str "No specific recommendations available"])) ∧
    (∀ (input : ListingInput) (raw : JsValue) (r : ListingGenerationN),
      normalizeListing input raw = .ok r →
      (truthy (fieldOf raw "product_title_variants") = false →
        r.product_title_variants = successTitleDefaults input) ∧
      (truthy (fieldOf raw "full_description_variants") = false →
        r.full_description_variants = successDescriptionDefaults input) ∧
      (truthy (fieldOf raw "bullet_point_variants") = false →
        r.bullet_point_variants = successBulletDefaults)) := by
  constructor
  · intro raw r h
    obtain ⟨hpp, hpf, hcg, har⟩ := normalizeReviewAnalysis_ok_shape raw r h
    refine ⟨?_, ?_, ?_, ?_⟩ <;> intro ht
    · rw [jsOr_of_falsy ht] at hpp
      simp only [jsMap, mapExcept, Except.ok.injEq] at hpp
      exact hpp.symm
    · rw [jsOr_of_falsy ht] at hpf
      simp only [jsMap, mapExcept, Except.ok.injEq] at hpf
      exact hpf.symm
    · rw [jsOr_of_falsy ht] at hcg
      simp only [jsMap, mapExcept, Except.ok.injEq] at hcg
      exact hcg.symm
    · rw [jsOr_of_falsy ht] at har
      exact har
  · intro input raw r h
    obtain ⟨ht, hb, hd, _, _⟩ := normalizeListing_ok_shape input raw r h
    refine ⟨?_, ?_, ?_⟩ <;> intro htr
    · rw [ht, jsOr_of_falsy htr]
    · rw [hd, jsOr_of_falsy htr]
    · rw [hb, jsOr_of_falsy htr]

/-- Witness for the amended claim C4: on the empty raw body every
defaulting clause fires. -/
theorem c4_amended_witness :
    normalizeReviewAnalysis (.obj []) = .ok emptyNormalized ∧
    truthy (fieldOf (.obj []) "top_pain_points") = false ∧
    emptyNormalized.top_pain_points = [] ∧
    emptyNormalized.actionable_recommendations = .arr [.str "No specific recommendations available"] ∧
    normalizeListing wInput (.obj []) =
      .ok { product_title_variants := successTitleDefaults wInput
            bullet_point_variants := successBulletDefaults
            full_description_variants := successDescriptionDefaults wInput
            primary_keywords := successPrimaryKeywordDefaults wInput
            secondary_keywords := successSecondaryKeywordDefaults } ∧
    ({ product_title_variants := successTitleDefaults wInput
       bullet_point_variants := successBulletDefaults
       full_description_variants := successDescriptionDefaults wInput
       primary_keywords := successPrimaryKeywordDefaults wInput
       secondary_keywords := successSecondaryKeywordDefaults } : ListingGenerationN).product_title_variants =
      successTitleDefaults wInput :=
  ⟨rfl, rfl,
   (c4_amended.1 (.obj []) emptyNormalized rfl).1 rfl,
   (c4_amended.1 (.obj []) emptyNormalized rfl).2.2.2 rfl,
   rfl,
   (c4_amended.2 wInput (.obj [])
     { product_title_variants := successTitleDefaults wInput
       bullet_point_variants := successBulletDefaults
       full_description_variants := successDescriptionDefaults wInput
       primary_keywords := successPrimaryKeywordDefaults wInput
       secondary_keywords := successSecondaryKeywordDefaults } rfl).1 rfl⟩

end MarketPulse
